import Mathlib

/-!
Shallow embedding of the retry/backoff core (`llm_copilot/retry.py`) and the
streaming-event state machine (`llm_copilot/streaming.py`) of the
`llm-copilot-agent` Python SDK, together with theorems settling the spec
claims about them.

Python floats are modelled as exact rationals (`ℚ`); `random.random()` is
modelled as an explicit numeric argument; Python exceptions are modelled as
values of an explicit exception datatype; raising is modelled with
`Except`-style sum results.
-/

/-- The exception classes visible to `retry.py`.  `exceptions.py` defines the
SDK hierarchy (every SDK error is a direct subclass of `CoPilotError`);
`retry.py` additionally sees Python's builtin `ConnectionError` and
`TimeoutError` (it imports only `CoPilotError`, `RateLimitError` and
`ServerError` from `llm_copilot.exceptions`, so the bare names
`ConnectionError`/`TimeoutError` inside `retry.py` are the builtins).
`otherException` stands for any non-SDK, non-builtin-listed exception. -/
inductive ExcClass where
  | coPilotError
  | authenticationError
  | authorizationError
  | notFoundError
  | validationError
  | rateLimitError
  | serverError
  | connectionError
  | timeoutError
  | builtinConnectionError
  | builtinTimeoutError
  | otherException
  deriving DecidableEq, Repr

/-- Whether a class is `CoPilotError` or one of its subclasses from
`exceptions.py`. -/
def ExcClass.isCoPilot : ExcClass → Bool
  | .builtinConnectionError => false
  | .builtinTimeoutError => false
  | .otherException => false
  | _ => true

/-- `isinstance(e, target)` on the classes above: the hierarchy is flat, so an
instance check succeeds exactly on the class itself, or on `CoPilotError` for
any SDK class. -/
def isinstance (c target : ExcClass) : Bool :=
  c == target || (target == ExcClass.coPilotError && c.isCoPilot)

/-- A Python exception value as far as `retry.py` inspects it: its class, its
`status_code` attribute (`CoPilotError` and subclasses) and its `retry_after`
attribute (`RateLimitError`). -/
structure PyException where
  cls : ExcClass
  status_code : Option Int
  retry_after : Option Int
  deriving DecidableEq, Repr

/-- `RetryConfig` from `retry.py` (a frozen dataclass).  Floats are modelled
as rationals. -/
structure RetryConfig where
  max_retries : Int
  initial_delay : ℚ
  max_delay : ℚ
  exponential_base : ℚ
  jitter : Bool
  retryable_exceptions : List ExcClass
  retryable_status_codes : List Int

/-- The dataclass defaults of `RetryConfig`: `max_retries=3`,
`initial_delay=1.0`, `max_delay=60.0`, `exponential_base=2.0`, `jitter=True`,
`retryable_exceptions=(ServerError, RateLimitError, ConnectionError,
TimeoutError)` (the latter two the Python builtins, see `ExcClass`),
`retryable_status_codes=(429, 500, 502, 503, 504)`. -/
def RetryConfig.default : RetryConfig :=
  ⟨3, 1, 60, 2, true,
   [ExcClass.serverError, ExcClass.rateLimitError,
    ExcClass.builtinConnectionError, ExcClass.builtinTimeoutError],
   [429, 500, 502, 503, 504]⟩

/-- Python truthiness of an optional integer (`None` and `0` are falsy). -/
def truthyInt : Option Int → Bool
  | some s => s != 0
  | none => false

/-- `RetryConfig.should_retry` from `retry.py`:
if `isinstance(exception, self.retryable_exceptions)` return `True`;
if `isinstance(exception, CoPilotError) and exception.status_code` return
`exception.status_code in self.retryable_status_codes`; else `False`. -/
def RetryConfig.should_retry (config : RetryConfig) (exception : PyException) : Bool :=
  if config.retryable_exceptions.any (fun c => isinstance exception.cls c) then
    true
  else if isinstance exception.cls ExcClass.coPilotError && truthyInt exception.status_code then
    decide (exception.status_code.getD 0 ∈ config.retryable_status_codes)
  else
    false

/-- Python truthiness of `retry_after is not None and retry_after > 0`. -/
def retryAfterPos : Option Int → Bool
  | some ra => decide (0 < ra)
  | none => false

/-- `RetryConfig.calculate_delay` from `retry.py`.  `r` models the value
drawn from `random.random()` (used only when `jitter` is set):
if `retry_after is not None and retry_after > 0` return `float(retry_after)`;
otherwise `delay = min(initial_delay * exponential_base ** attempt,
max_delay)`, multiplied by `(0.5 + random.random())` when `jitter`. -/
def RetryConfig.calculate_delay (config : RetryConfig) (attempt : Nat)
    (retry_after : Option Int) (r : ℚ) : ℚ :=
  if retryAfterPos retry_after then
    ((retry_after.getD 0 : Int) : ℚ)
  else
    let delay := min (config.initial_delay * config.exponential_base ^ attempt)
      config.max_delay
    if config.jitter then delay * (1 / 2 + r) else delay

/-- `RetryState.should_retry` from `retry.py`, with the mutable state's
`attempt` counter passed explicitly: `False` when
`exhausted` (`attempt >= config.max_retries`), else `config.should_retry`. -/
def RetryState.should_retry (config : RetryConfig) (attempt : Nat)
    (exception : PyException) : Bool :=
  if (attempt : Int) ≥ config.max_retries then false
  else config.should_retry exception

/-- The `retry_after` extraction in `RetryState.get_delay`: the exception's
`retry_after` attribute when it is a `RateLimitError`, else `None`. -/
def rateLimitRetryAfter (exception : PyException) : Option Int :=
  if isinstance exception.cls ExcClass.rateLimitError then exception.retry_after
  else none

/-- One recorded invocation of the `on_retry` observer callback: the
post-increment `state.attempt`, the exception, and the computed delay. -/
structure RetryCall where
  attempt : Nat
  exc : PyException
  delay : ℚ
  deriving DecidableEq

/-- How a `retry_async` run ends: a returned value, an exception raised by the
operation and propagated, or an exception raised by the `on_retry` callback
itself (which propagates out of the loop uncaught). -/
inductive RetryOutcome (A : Type) where
  | ok : A → RetryOutcome A
  | raised : PyException → RetryOutcome A
  | callbackRaised : PyException → RetryOutcome A
  deriving DecidableEq

/-- Observable record of a `retry_async` run: its outcome, how many times the
operation was invoked, and the `on_retry` callback invocations made. -/
structure RunLog (A : Type) where
  outcome : RetryOutcome A
  invocations : Nat
  calls : List RetryCall

/-- `retry_async` from `retry.py`.  `func` gives the operation's behaviour on
its `k`-th invocation (0-based, which always coincides with `state.attempt` at
that moment); `on_retry` is the optional observer callback, which may itself
raise; `rand` supplies the `random.random()` draw used for the delay computed
after the `k`-th recorded failure.  The loop: invoke `func`; on success
return; on exception `e`, if `state.should_retry(e)` fails re-raise `e`,
otherwise record the failure, compute the delay (passing the exception's
`retry_after` when it is a `RateLimitError`), invoke `on_retry` if supplied
(uncaught: an exception it raises propagates), sleep, and loop. -/
def retry_async {A : Type} (config : RetryConfig)
    (func : Nat → Except PyException A)
    (on_retry : Option (Nat → PyException → ℚ → Except PyException Unit))
    (rand : Nat → ℚ) (attempt : Nat) : RunLog A :=
  match func attempt with
  | .ok a => ⟨.ok a, 1, []⟩
  | .error e =>
    if hr : RetryState.should_retry config attempt e = true then
      let delay := config.calculate_delay (attempt + 1) (rateLimitRetryAfter e)
        (rand (attempt + 1))
      match on_retry with
      | none =>
        let rest := retry_async config func none rand (attempt + 1)
        ⟨rest.outcome, rest.invocations + 1, rest.calls⟩
      | some cb =>
        match cb (attempt + 1) e delay with
        | .ok _ =>
          let rest := retry_async config func (some cb) rand (attempt + 1)
          ⟨rest.outcome, rest.invocations + 1, ⟨attempt + 1, e, delay⟩ :: rest.calls⟩
        | .error ce => ⟨.callbackRaised ce, 1, [⟨attempt + 1, e, delay⟩]⟩
    else ⟨.raised e, 1, []⟩
termination_by (config.max_retries - (attempt : Int)).toNat
decreasing_by
  all_goals
    simp only [RetryState.should_retry] at hr
    split at hr
    · exact absurd hr (by simp)
    · rename_i hlt; omega

/-- The kinds of streaming event (`StreamEventType` in `streaming.py`). -/
inductive StreamEventType where
  | message_start
  | content_delta
  | message_end
  | tool_use
  | tool_result
  | error
  | ping
  deriving DecidableEq, Repr

/-- The `StreamEventType(s)` enum constructor: `some` on the seven valid
values, `none` models the `ValueError` it raises otherwise. -/
def StreamEventType.ofString (s : String) : Option StreamEventType :=
  if s = "message_start" then some .message_start
  else if s = "content_delta" then some .content_delta
  else if s = "message_end" then some .message_end
  else if s = "tool_use" then some .tool_use
  else if s = "tool_result" then some .tool_result
  else if s = "error" then some .error
  else if s = "ping" then some .ping
  else none

/-- A decoded JSON payload as far as `streaming.py` inspects it: the values
(when present, as strings) of the keys `"type"`, `"message_id"` and `"id"`,
the nested `data["delta"]["text"]`, and the value of the key `"error"`. -/
structure Payload where
  ptype : Option String
  message_id : Option String
  pid : Option String
  delta_text : Option String
  perror : Option String
  deriving DecidableEq, Repr

/-- The empty payload dict (no keys present). -/
def Payload.empty : Payload := ⟨none, none, none, none, none⟩

/-- `data.get("type", "content_delta")` fed to the enum constructor, with the
`except ValueError: event_type = StreamEventType.CONTENT_DELTA` fallback. -/
def parseEventType (data : Payload) : StreamEventType :=
  match StreamEventType.ofString (data.ptype.getD "content_delta") with
  | some t => t
  | none => .content_delta

/-- Python's `a or b` on two optional strings (`None` and `""` are falsy). -/
def pyOrStr : Option String → Option String → Option String
  | some s, b => if s = "" then b else some s
  | none, b => b

/-- Python truthiness of an optional string. -/
def truthyStr : Option String → Bool
  | some s => s != ""
  | none => false

/-- `StreamEvent` from `streaming.py`: an event type, the raw payload dict,
and the parser's remembered message id at emission time. -/
structure StreamEvent where
  event_type : StreamEventType
  data : Payload
  message_id : Option String
  deriving DecidableEq, Repr

/-- The `StreamEvent.content` property: the delta text (defaulting to `""`)
for `content_delta` events, `None` otherwise. -/
def StreamEvent.content (e : StreamEvent) : Option String :=
  if e.event_type = .content_delta then some (e.data.delta_text.getD "")
  else none

/-- The `StreamEvent.is_final` property: `message_end` and `error` events are
final. -/
def StreamEvent.is_final (e : StreamEvent) : Bool :=
  e.event_type == .message_end || e.event_type == .error

/-- The `StreamEvent.error` property: `data.get("error", "Unknown error")` for
`error` events, `None` otherwise. -/
def StreamEvent.error (e : StreamEvent) : Option String :=
  if e.event_type = .error then some (e.data.perror.getD "Unknown error")
  else none

/-- The mutable parser state of a `StreamingResponse`: `self._message_id` and
`self._complete_content`. -/
structure StreamState where
  message_id : Option String
  complete_content : String
  deriving DecidableEq, Repr

/-- The parser state of a freshly constructed `StreamingResponse`. -/
def StreamState.init : StreamState := ⟨none, ""⟩

/-- `StreamingResponse._parse_event`: resolve the event type (unknown or
missing `"type"` falls back to `content_delta`); if
`data.get("message_id") or data.get("id")` is truthy, remember it as
`self._message_id`; for `content_delta` events append the delta text to
`self._complete_content`; return the event built from the type, the payload
and the current `self._message_id`. -/
def parse_event (st : StreamState) (data : Payload) : StreamState × StreamEvent :=
  let event_type := parseEventType data
  let mid := pyOrStr data.message_id data.pid
  let st1 := if truthyStr mid then { st with message_id := mid } else st
  let st2 :=
    if event_type = .content_delta then
      { st1 with complete_content := st1.complete_content ++ data.delta_text.getD "" }
    else st1
  (st2, ⟨event_type, data, st2.message_id⟩)

/-- What a line of the underlying transport can be, as `__aiter__`
distinguishes lines: empty (skipped), lacking the `"data: "` marker
(skipped), or a data line whose remainder is `d`. -/
inductive DataStr where
  | done
  | malformed (s : String)
  | valid (p : Payload)
  deriving DecidableEq, Repr

/-- A transport line.  A data line's remainder is `"[DONE]"`, a string
`json.loads` rejects, or a string decoding to a payload `p`. -/
inductive Line where
  | empty
  | other (s : String)
  | dataLine (d : DataStr)
  deriving DecidableEq, Repr

/-- `StreamingResponse.__aiter__`, drained to the end from parser state `st`:
skip empty lines and lines without the `"data: "` marker; stop at `[DONE]`;
skip lines whose payload fails to decode (`except json.JSONDecodeError:
continue`); otherwise run `_parse_event` and yield its event.  Returns the
final parser state and the events yielded, in order. -/
def runStream (st : StreamState) : List Line → StreamState × List StreamEvent
  | [] => (st, [])
  | .empty :: rest => runStream st rest
  | .other _ :: rest => runStream st rest
  | .dataLine .done :: _ => (st, [])
  | .dataLine (.malformed _) :: rest => runStream st rest
  | .dataLine (.valid p) :: rest =>
    let step := parse_event st p
    let next := runStream step.1 rest
    (next.1, step.2 :: next.2)

/-- `StreamingResponse.get_complete_content` on a fresh response: drain the
stream, then return `self._complete_content`. -/
def get_complete_content (lines : List Line) : String :=
  (runStream StreamState.init lines).1.complete_content

/-- The structured record `get_final_message` returns: the final data dict
with the keys `"content"` and `"message_id"` set from the parser state. -/
structure FinalMessage where
  data : Payload
  content : String
  message_id : Option String
  deriving DecidableEq, Repr

/-- The event loop inside `get_final_message`: remember the data of the last
`message_end` event; on an `error` event raise
`RuntimeError(event.error)`. -/
def finalFold : List StreamEvent → Payload → Except String Payload
  | [], acc => .ok acc
  | ev :: rest, acc =>
    if ev.event_type = .message_end then finalFold rest ev.data
    else if ev.event_type = .error then .error (ev.data.perror.getD "Unknown error")
    else finalFold rest acc

/-- `StreamingResponse.get_final_message` on a fresh response: drain the
stream; raise on an `error` event; otherwise return the last `message_end`
payload (or the empty dict) together with `content = self._complete_content` and
`message_id = self._message_id`. -/
def get_final_message (lines : List Line) : Except String FinalMessage :=
  let run := runStream StreamState.init lines
  match finalFold run.2 Payload.empty with
  | .error m => .error m
  | .ok d => .ok ⟨d, run.1.complete_content, run.1.message_id⟩

/-- The delay computed before the retry that follows the failure `e` of the
invocation numbered `k - 1`, i.e. while `state.attempt = k`. -/
def retryDelay (config : RetryConfig) (e : PyException) (rand : Nat → ℚ)
    (k : Nat) : ℚ :=
  config.calculate_delay k (rateLimitRetryAfter e) (rand k)

/-- Reference description taken from the claim's words: the concatenation of
the `content_delta` texts carried by the decodable data-line payloads, up to
a `[DONE]` marker. -/
def deltaJoin : List Line → String
  | [] => ""
  | .dataLine .done :: _ => ""
  | .dataLine (.valid p) :: rest =>
    (if parseEventType p = .content_delta then p.delta_text.getD "" else "")
      ++ deltaJoin rest
  | .dataLine (.malformed _) :: rest => deltaJoin rest
  | .empty :: rest => deltaJoin rest
  | .other _ :: rest => deltaJoin rest

/-- A `ServerError` with status 500. -/
def serverExc : PyException := ⟨ExcClass.serverError, some 500, none⟩

/-- An `AuthenticationError` with its default status 401. -/
def authExc401 : PyException := ⟨ExcClass.authenticationError, some 401, none⟩

/-- An `AuthorizationError` with its default status 403. -/
def authExc403 : PyException := ⟨ExcClass.authorizationError, some 403, none⟩

/-- A non-SDK exception raised by a test callback. -/
def cbExc : PyException := ⟨ExcClass.otherException, none, none⟩

/-- The default config with `401` added to `retryable_status_codes`. -/
def cfg401 : RetryConfig :=
  ⟨3, 1, 60, 2, true,
   [ExcClass.serverError, ExcClass.rateLimitError,
    ExcClass.builtinConnectionError, ExcClass.builtinTimeoutError],
   [401, 429, 500, 502, 503, 504]⟩

/-- An operation failing on every invocation with `serverExc`. -/
def alwaysFailServer : Nat → Except PyException Unit := fun _ => .error serverExc

/-- An observer callback that itself raises on every invocation. -/
def throwingCb : Nat → PyException → ℚ → Except PyException Unit :=
  fun _ _ _ => .error cbExc

/-- A deterministic stand-in for `random.random()`. -/
def rand0 : Nat → ℚ := fun _ => 0

lemma state_should_retry_true (config : RetryConfig) (attempt : Nat)
    (e : PyException) (h1 : (attempt : Int) < config.max_retries)
    (h2 : config.should_retry e = true) :
    RetryState.should_retry config attempt e = true := by
  rw [RetryState.should_retry, if_neg (by omega), h2]

lemma state_should_retry_exhausted (config : RetryConfig) (attempt : Nat)
    (e : PyException) (h1 : (attempt : Int) ≥ config.max_retries) :
    RetryState.should_retry config attempt e = false := by
  rw [RetryState.should_retry, if_pos h1]

lemma state_should_retry_not (config : RetryConfig) (attempt : Nat)
    (e : PyException) (h2 : config.should_retry e = false) :
    RetryState.should_retry config attempt e = false := by
  rw [RetryState.should_retry]
  split
  · rfl
  · exact h2

lemma retry_async_ok (config : RetryConfig) {A : Type}
    (func : Nat → Except PyException A) (cb : Option (Nat → PyException → ℚ → Except PyException Unit))
    (rand : Nat → ℚ) (attempt : Nat) (a : A) (h : func attempt = .ok a) :
    retry_async config func cb rand attempt = ⟨.ok a, 1, []⟩ := by
  rw [retry_async, h]

lemma retry_async_noretry (config : RetryConfig) {A : Type}
    (func : Nat → Except PyException A) (cb : Option (Nat → PyException → ℚ → Except PyException Unit))
    (rand : Nat → ℚ) (attempt : Nat) (e : PyException)
    (h : func attempt = .error e)
    (hs : RetryState.should_retry config attempt e = false) :
    retry_async config func cb rand attempt = ⟨.raised e, 1, []⟩ := by
  rw [retry_async, h]
  simp [hs]

lemma retry_async_retry_none (config : RetryConfig) {A : Type}
    (func : Nat → Except PyException A) (rand : Nat → ℚ) (attempt : Nat)
    (e : PyException) (h : func attempt = .error e)
    (hs : RetryState.should_retry config attempt e = true) :
    retry_async config func none rand attempt =
      ⟨(retry_async config func none rand (attempt + 1)).outcome,
       (retry_async config func none rand (attempt + 1)).invocations + 1,
       (retry_async config func none rand (attempt + 1)).calls⟩ := by
  rw [retry_async, h]
  simp [hs]

lemma retry_async_retry_cbok (config : RetryConfig) {A : Type}
    (func : Nat → Except PyException A)
    (cb : Nat → PyException → ℚ → Except PyException Unit)
    (rand : Nat → ℚ) (attempt : Nat) (e : PyException)
    (h : func attempt = .error e)
    (hs : RetryState.should_retry config attempt e = true)
    (hcb : cb (attempt + 1) e (retryDelay config e rand (attempt + 1)) = .ok ()) :
    retry_async config func (some cb) rand attempt =
      ⟨(retry_async config func (some cb) rand (attempt + 1)).outcome,
       (retry_async config func (some cb) rand (attempt + 1)).invocations + 1,
       ⟨attempt + 1, e, retryDelay config e rand (attempt + 1)⟩ ::
         (retry_async config func (some cb) rand (attempt + 1)).calls⟩ := by
  rw [retry_async, h]
  simp only [retryDelay] at hcb
  simp [hs, hcb, retryDelay]

lemma retry_async_retry_cberr (config : RetryConfig) {A : Type}
    (func : Nat → Except PyException A)
    (cb : Nat → PyException → ℚ → Except PyException Unit)
    (rand : Nat → ℚ) (attempt : Nat) (e ce : PyException)
    (h : func attempt = .error e)
    (hs : RetryState.should_retry config attempt e = true)
    (hcb : cb (attempt + 1) e (retryDelay config e rand (attempt + 1)) = .error ce) :
    retry_async config func (some cb) rand attempt =
      ⟨.callbackRaised ce, 1, [⟨attempt + 1, e, retryDelay config e rand (attempt + 1)⟩]⟩ := by
  rw [retry_async, h]
  simp only [retryDelay] at hcb
  simp [hs, hcb, retryDelay]

lemma retry_async_invocations_le (config : RetryConfig) {A : Type}
    (func : Nat → Except PyException A)
    (cb : Option (Nat → PyException → ℚ → Except PyException Unit))
    (rand : Nat → ℚ) (attempt : Nat) :
    (retry_async config func cb rand attempt).invocations ≤
      (config.max_retries - (attempt : Int)).toNat + 1 := by
  generalize hk : (config.max_retries - (attempt : Int)).toNat = k
  induction k generalizing attempt with
  | zero =>
    rcases hf : func attempt with e | a
    · rw [retry_async_noretry config func cb rand attempt e hf
        (state_should_retry_exhausted config attempt e (by omega))]
    · rw [retry_async_ok config func cb rand attempt a hf]
  | succ n ih =>
    rcases hf : func attempt with e | a
    · rcases hs : RetryState.should_retry config attempt e with _ | _
      · rw [retry_async_noretry config func cb rand attempt e hf hs]
        simp
      · have hlt : (attempt : Int) < config.max_retries := by
          by_contra hge
          rw [state_should_retry_exhausted config attempt e (by omega)] at hs
          exact Bool.false_ne_true hs
        have hk' : (config.max_retries - ((attempt + 1 : Nat) : Int)).toNat = n := by
          push_cast
          omega
        rcases cb with _ | cbf
        · rw [retry_async_retry_none config func rand attempt e hf hs]
          have hih := ih (attempt + 1) hk'
          simp only
          omega
        · rcases hcb : cbf (attempt + 1) e (retryDelay config e rand (attempt + 1))
            with ce | u
          · rw [retry_async_retry_cberr config func cbf rand attempt e ce hf hs hcb]
            simp
          · rcases u
            rw [retry_async_retry_cbok config func cbf rand attempt e hf hs hcb]
            have hih := ih (attempt + 1) hk'
            simp only
            omega
    · rw [retry_async_ok config func cb rand attempt a hf]
      simp

lemma retry_async_always_fail (config : RetryConfig) {A : Type}
    (es : Nat → PyException) (func : Nat → Except PyException A)
    (hop : ∀ k, func k = .error (es k))
    (hret : ∀ k, config.should_retry (es k) = true)
    (rand : Nat → ℚ) (attempt : Nat) (h : (attempt : Int) ≤ config.max_retries) :
    retry_async config func none rand attempt =
      ⟨.raised (es config.max_retries.toNat),
       (config.max_retries - (attempt : Int)).toNat + 1, []⟩ := by
  generalize hk : (config.max_retries - (attempt : Int)).toNat = k
  induction k generalizing attempt with
  | zero =>
    rw [retry_async_noretry config func none rand attempt (es attempt) (hop attempt)
      (state_should_retry_exhausted config attempt (es attempt) (by omega))]
    have ha : attempt = config.max_retries.toNat := by omega
    rw [ha]
  | succ n ih =>
    have hlt : (attempt : Int) < config.max_retries := by omega
    rw [retry_async_retry_none config func rand attempt (es attempt) (hop attempt)
      (state_should_retry_true config attempt (es attempt) hlt (hret attempt))]
    rw [ih (attempt + 1) (by push_cast; omega) (by push_cast; omega)]

lemma retry_async_always_fail_cbok (config : RetryConfig) {A : Type}
    (es : Nat → PyException) (func : Nat → Except PyException A)
    (hop : ∀ k, func k = .error (es k))
    (hret : ∀ k, config.should_retry (es k) = true)
    (cb : Nat → PyException → ℚ → Except PyException Unit)
    (hcb : ∀ k e d, cb k e d = .ok ())
    (rand : Nat → ℚ) (attempt : Nat) (h : (attempt : Int) ≤ config.max_retries) :
    retry_async config func (some cb) rand attempt =
      ⟨.raised (es config.max_retries.toNat),
       (config.max_retries - (attempt : Int)).toNat + 1,
       (List.range' (attempt + 1) (config.max_retries - (attempt : Int)).toNat).map
         (fun k => ⟨k, es (k - 1), retryDelay config (es (k - 1)) rand k⟩)⟩ := by
  generalize hk : (config.max_retries - (attempt : Int)).toNat = k
  induction k generalizing attempt with
  | zero =>
    rw [retry_async_noretry config func (some cb) rand attempt (es attempt) (hop attempt)
      (state_should_retry_exhausted config attempt (es attempt) (by omega))]
    have ha : attempt = config.max_retries.toNat := by omega
    rw [ha]
    rfl
  | succ n ih =>
    have hlt : (attempt : Int) < config.max_retries := by omega
    rw [retry_async_retry_cbok config func cb rand attempt (es attempt) (hop attempt)
      (state_should_retry_true config attempt (es attempt) hlt (hret attempt))
      (hcb (attempt + 1) (es attempt) (retryDelay config (es attempt) rand (attempt + 1)))]
    rw [ih (attempt + 1) (by push_cast; omega) (by push_cast; omega)]
    rw [List.range'_succ (attempt + 1) n 1]
    simp

lemma isinstance_coPilot (c : ExcClass) :
    isinstance c ExcClass.coPilotError = c.isCoPilot := by
  cases c <;> rfl

lemma default_should_retry_server :
    RetryConfig.default.should_retry serverExc = true := by decide

/-- C1: for every policy with `max_retries = n` and every operation that fails
on every invocation with a retryable failure, `retry_async` invokes the
operation exactly `n + 1` times (one initial attempt plus `n` retries) and
then raises that failure; and for every operation whatsoever the total number
of invocations never exceeds `max_retries + 1`. -/
theorem C1_retry_invocation_count (config : RetryConfig) (n : Nat)
    (hmax : config.max_retries = (n : Int)) {A : Type}
    (func : Nat → Except PyException A) (e : PyException)
    (hop : ∀ k, func k = .error e)
    (hret : config.should_retry e = true) (rand : Nat → ℚ) :
    (retry_async config func none rand 0).invocations = n + 1 ∧
    (retry_async config func none rand 0).outcome = .raised e ∧
    ∀ (func' : Nat → Except PyException A)
      (cb : Option (Nat → PyException → ℚ → Except PyException Unit))
      (rand' : Nat → ℚ),
      (retry_async config func' cb rand' 0).invocations ≤ n + 1 := by
  have h0 : ((0 : Nat) : Int) ≤ config.max_retries := by omega
  have hall := retry_async_always_fail config (fun _ => e) func hop
    (fun _ => hret) rand 0 h0
  refine ⟨?_, ?_, ?_⟩
  · rw [hall]
    simp [hmax]
  · rw [hall]
  · intro func' cb rand'
    have hle := retry_async_invocations_le config func' cb rand' 0
    rw [hmax] at hle
    simpa using hle

/-- C1 witness: the default policy (`max_retries = 3`) against an operation
that always fails with a retryable `ServerError` gives exactly 4 invocations
and raises that failure. -/
theorem C1_witness :
    (retry_async RetryConfig.default alwaysFailServer none rand0 0).invocations = 4 ∧
    (retry_async RetryConfig.default alwaysFailServer none rand0 0).outcome
      = .raised serverExc := by
  have h := C1_retry_invocation_count RetryConfig.default 3 rfl alwaysFailServer
    serverExc (fun _ => rfl) (by decide) rand0
  exact ⟨h.1, h.2.1⟩

/-- C5: an operation whose failure is classified non-retryable is invoked
exactly once and the original failure value propagates unchanged (not wrapped,
not replaced); and when retries are exhausted the failure raised is exactly
the failure value of the final invocation. -/
theorem C5_failure_identity (config : RetryConfig) {A : Type}
    (func : Nat → Except PyException A) (e : PyException)
    (h1 : func 0 = .error e) (h2 : config.should_retry e = false)
    (cb : Option (Nat → PyException → ℚ → Except PyException Unit))
    (rand : Nat → ℚ) :
    retry_async config func cb rand 0 = ⟨.raised e, 1, []⟩ ∧
    ∀ (func' : Nat → Except PyException A) (es : Nat → PyException) (n : Nat),
      config.max_retries = (n : Int) →
      (∀ k, func' k = .error (es k)) →
      (∀ k, config.should_retry (es k) = true) →
      (retry_async config func' none rand 0).outcome = .raised (es n) := by
  constructor
  · exact retry_async_noretry config func cb rand 0 e h1
      (state_should_retry_not config 0 e h2)
  · intro func' es n hmax hop hret
    have hall := retry_async_always_fail config es func' hop hret rand 0 (by omega)
    rw [hall, hmax]
    simp

/-- C5 witness: with the default policy, an `AuthenticationError` (status 401,
not retryable) is raised unchanged after a single invocation; and an operation
failing every time with a distinct retryable `ServerError` per invocation
finally raises exactly the failure of invocation 3. -/
theorem C5_witness :
    retry_async RetryConfig.default
        ((fun _ => .error authExc401) : Nat → Except PyException Unit) none rand0 0
      = ⟨.raised authExc401, 1, []⟩ ∧
    (retry_async RetryConfig.default
        (fun k => (.error ⟨ExcClass.serverError, some (500 + k), none⟩ :
          Except PyException Unit)) none rand0 0).outcome
      = .raised ⟨ExcClass.serverError, some 503, none⟩ := by
  have h := C5_failure_identity RetryConfig.default
    ((fun _ => .error authExc401) : Nat → Except PyException Unit)
    authExc401 rfl (by decide) none rand0
  exact ⟨h.1, h.2 (fun k => .error ⟨ExcClass.serverError, some (500 + k), none⟩)
    (fun k => ⟨ExcClass.serverError, some (500 + k), none⟩) 3 rfl
    (fun _ => rfl) (fun _ => rfl)⟩

/-- C4 counterexample: with the default policy, an operation that always
fails with a retryable `ServerError`, and an `on_retry` callback that itself
raises, the run aborts after a single invocation with the callback's
exception — it does not perform the remaining retries nor return the same
outcome as with a non-throwing callback (which makes 4 invocations and raises
the operation's failure). -/
theorem C4_counterexample :
    (retry_async RetryConfig.default alwaysFailServer (some throwingCb) rand0 0).outcome
        = .callbackRaised cbExc ∧
    (retry_async RetryConfig.default alwaysFailServer (some throwingCb) rand0 0).invocations
        = 1 ∧
    (retry_async RetryConfig.default alwaysFailServer none rand0 0).outcome
        = .raised serverExc ∧
    (retry_async RetryConfig.default alwaysFailServer none rand0 0).invocations
        = 4 := by
  have hstep := retry_async_retry_cberr RetryConfig.default alwaysFailServer
    throwingCb rand0 0 serverExc cbExc rfl (by decide) rfl
  have hall := retry_async_always_fail RetryConfig.default (fun _ => serverExc)
    alwaysFailServer (fun _ => rfl) (fun _ => default_should_retry_server)
    rand0 0 (by decide)
  rw [hstep, hall]
  exact ⟨rfl, rfl, rfl, rfl⟩

/-- C4 (amended): when an `on_retry` callback is supplied it is invoked
before every retry with the post-increment attempt number, the failure just
caught, and the computed delay; but an exception raised by the callback
itself propagates out of `retry_async` immediately, aborting the remaining
retries after a single operation invocation. -/
theorem C4_callback_invocations_and_abort (config : RetryConfig) (n : Nat)
    (hmax : config.max_retries = (n : Int)) {A : Type}
    (es : Nat → PyException) (func : Nat → Except PyException A)
    (hop : ∀ k, func k = .error (es k))
    (hret : ∀ k, config.should_retry (es k) = true) (rand : Nat → ℚ) :
    (∀ cb, (∀ k e d, cb k e d = .ok ()) →
      (retry_async config func (some cb) rand 0).calls =
        (List.range' 1 n).map
          (fun k => ⟨k, es (k - 1), retryDelay config (es (k - 1)) rand k⟩)) ∧
    (∀ cb ce, (∀ k e d, cb k e d = .error ce) → 0 < n →
      (retry_async config func (some cb) rand 0).outcome = .callbackRaised ce ∧
      (retry_async config func (some cb) rand 0).invocations = 1 ∧
      (retry_async config func (some cb) rand 0).calls =
        [⟨1, es 0, retryDelay config (es 0) rand 1⟩]) := by
  constructor
  · intro cb hcb
    have hall := retry_async_always_fail_cbok config es func hop hret cb hcb
      rand 0 (by omega)
    rw [hall, hmax]
    simp
  · intro cb ce hcb hn
    have hstep := retry_async_retry_cberr config func cb rand 0 (es 0) ce
      (hop 0) (state_should_retry_true config 0 (es 0) (by omega) (hret 0))
      (hcb 1 (es 0) (retryDelay config (es 0) rand 1))
    rw [hstep]
    exact ⟨rfl, rfl, rfl⟩

/-- C4 witness: with the default policy (3 retries) and an always-failing
retryable operation, a non-throwing callback is invoked before every one of
the 3 retries with attempts 1, 2, 3, the caught failure and the computed
delay; a throwing callback aborts the run at the first retry. -/
theorem C4_witness :
    (retry_async RetryConfig.default alwaysFailServer
        (some (fun _ _ _ => .ok ())) rand0 0).calls =
      [⟨1, serverExc, retryDelay RetryConfig.default serverExc rand0 1⟩,
       ⟨2, serverExc, retryDelay RetryConfig.default serverExc rand0 2⟩,
       ⟨3, serverExc, retryDelay RetryConfig.default serverExc rand0 3⟩] ∧
    (retry_async RetryConfig.default alwaysFailServer (some throwingCb) rand0 0).invocations
        = 1 := by
  have h := C4_callback_invocations_and_abort RetryConfig.default 3 rfl
    (fun _ => serverExc) alwaysFailServer (fun _ => rfl)
    (fun _ => default_should_retry_server) rand0
  refine ⟨?_, (h.2 throwingCb cbExc (fun _ _ _ => rfl) (by decide)).2.1⟩
  have h1 := h.1 (fun _ _ _ => .ok ()) (fun _ _ _ => rfl)
  rw [h1]
  rfl

/-- C2 counterexample: the code has no 401/403 override — with 401 added to
`retryable_status_codes`, an `AuthenticationError` carrying status 401 is
classified retryable, contradicting the claim that it never is. -/
theorem C2_counterexample : RetryConfig.should_retry cfg401 authExc401 = true := by
  decide

/-- C2 (amended): there is no authentication/authorization override in
`should_retry`: for a `CoPilotError` whose class is not matched by
`retryable_exceptions` and whose status code is truthy, retryability is
exactly membership of the status code in `retryable_status_codes` — so a 401
or 403 failure is retryable precisely when its code is in the set, and under
the default set (429, 500, 502, 503, 504) the 401/403 authentication and
authorization failures are not retryable. -/
theorem C2_no_auth_override (config : RetryConfig) (e : PyException) (s : Int)
    (hcls : e.cls.isCoPilot = true)
    (hnot : ∀ c ∈ config.retryable_exceptions, isinstance e.cls c = false)
    (hst : e.status_code = some s) (hs0 : s ≠ 0) :
    config.should_retry e = decide (s ∈ config.retryable_status_codes) ∧
    RetryConfig.default.should_retry authExc401 = false ∧
    RetryConfig.default.should_retry authExc403 = false := by
  refine ⟨?_, by decide, by decide⟩
  have hany : config.retryable_exceptions.any (fun c => isinstance e.cls c) = false := by
    rw [List.any_eq_false]
    intro c hc
    simp [hnot c hc]
  have hsnd : (isinstance e.cls ExcClass.coPilotError && truthyInt e.status_code) = true := by
    rw [isinstance_coPilot, hcls, hst]
    simpa [truthyInt] using hs0
  rw [RetryConfig.should_retry]
  rw [if_neg (by simp [hany]), if_pos hsnd, hst]
  rfl

/-- C2 witness: membership decides — under `cfg401` (401 in the set, 403 not)
the 403 authorization failure is not retryable, per the amended claim. -/
theorem C2_witness :
    RetryConfig.should_retry cfg401 authExc403 = false := by
  have h := C2_no_auth_override cfg401 authExc403 403 (by decide)
    (by decide) rfl (by decide)
  rw [h.1]
  rfl

/-- C3: `calculate_delay` matches its reference definition: a provided
positive `retry_after` is returned unchanged regardless of attempt and
policy; otherwise with jitter disabled the result is exactly
`min(initial_delay * exponential_base ^ attempt, max_delay)`, so `attempt = 0`
without jitter yields exactly `initial_delay` until capped; and for a policy
with non-negative parameters (and a non-negative random draw) the result is
never negative. -/
theorem C3_calculate_delay_reference (config : RetryConfig) (attempt : Nat)
    (r : ℚ) (ra : Int) :
    (0 < ra → ∀ (attempt' : Nat) (r' : ℚ),
      config.calculate_delay attempt' (some ra) r' = (ra : ℚ)) ∧
    (config.jitter = false →
      config.calculate_delay attempt none r =
        min (config.initial_delay * config.exponential_base ^ attempt)
          config.max_delay) ∧
    (config.jitter = false → config.initial_delay ≤ config.max_delay →
      config.calculate_delay 0 none r = config.initial_delay) ∧
    (∀ rop : Option Int, 0 ≤ config.initial_delay → 0 ≤ config.max_delay →
      0 ≤ config.exponential_base → 0 ≤ r →
      0 ≤ config.calculate_delay attempt rop r) := by
  have hbody : ∀ (a : Nat), 0 ≤ config.initial_delay → 0 ≤ config.max_delay →
      0 ≤ config.exponential_base → 0 ≤ r →
      0 ≤ config.calculate_delay a none r := by
    intro a h1 h2 h3 h4
    rw [RetryConfig.calculate_delay, if_neg (by simp [retryAfterPos])]
    have hmin : 0 ≤ min (config.initial_delay * config.exponential_base ^ a)
        config.max_delay :=
      le_min (mul_nonneg h1 (pow_nonneg h3 a)) h2
    rcases hj : config.jitter with _ | _
    · simpa [hj] using hmin
    · simp only [hj, if_pos]
      exact mul_nonneg hmin (by linarith)
  refine ⟨?_, ?_, ?_, ?_⟩
  · intro hra attempt' r'
    rw [RetryConfig.calculate_delay, if_pos (by simpa [retryAfterPos] using hra)]
    rfl
  · intro hj
    rw [RetryConfig.calculate_delay, if_neg (by simp [retryAfterPos])]
    simp [hj]
  · intro hj hle
    rw [RetryConfig.calculate_delay, if_neg (by simp [retryAfterPos])]
    simp [hj, min_eq_left hle]
  · intro rop h1 h2 h3 h4
    rcases rop with _ | ra'
    · exact hbody attempt h1 h2 h3 h4
    · rcases hra' : decide (0 < ra') with _ | _
      · rw [RetryConfig.calculate_delay, if_neg (by simp [retryAfterPos, hra'])]
        have := hbody attempt h1 h2 h3 h4
        rw [RetryConfig.calculate_delay, if_neg (by simp [retryAfterPos])] at this
        exact this
      · rw [RetryConfig.calculate_delay, if_pos (by simp [retryAfterPos, hra'])]
        have : (0 : Int) < ra' := of_decide_eq_true hra'
        simp only [Option.getD]
        positivity

/-- C3 witness: with jitter disabled, `initial_delay = 1`, base 2: a provided
`retry_after = 30` is returned unchanged at attempt 5; attempt 3 gives 8;
attempt 0 gives exactly the initial delay; and the result is non-negative. -/
theorem C3_witness :
    RetryConfig.calculate_delay ⟨3, 1, 60, 2, false, [], []⟩ 5 (some 30) 0 = 30 ∧
    RetryConfig.calculate_delay ⟨3, 1, 60, 2, false, [], []⟩ 3 none 0 = 8 ∧
    RetryConfig.calculate_delay ⟨3, 1, 60, 2, false, [], []⟩ 0 none 0 = 1 ∧
    0 ≤ RetryConfig.calculate_delay ⟨3, 1, 60, 2, false, [], []⟩ 3 none 0 := by
  have h := C3_calculate_delay_reference ⟨3, 1, 60, 2, false, [], []⟩ 3 0 30
  refine ⟨h.1 (by norm_num) 5 0, ?_, ?_, h.2.2.2 none (by norm_num) (by norm_num)
    (by norm_num) (by norm_num)⟩
  · rw [h.2.1 rfl]
    norm_num
  · rw [h.2.2.1 rfl (by norm_num)]

/-- C9 (implicit): with jitter enabled and no `retry_after` override,
`calculate_delay` returns `min(initial_delay * base ^ attempt, max_delay) *
(0.5 + r)` for the drawn `r`; because the `max_delay` ceiling is applied
before the jitter multiplication, whenever the uncapped exponential has
reached `max_delay > 0` and the draw satisfies `r > 0.5`, the returned delay
strictly exceeds `max_delay`, while staying below `1.5 * max_delay` for every
`r < 1`. -/
theorem C9_jitter_exceeds_cap (config : RetryConfig) (attempt : Nat) (r : ℚ)
    (hj : config.jitter = true) :
    config.calculate_delay attempt none r =
      min (config.initial_delay * config.exponential_base ^ attempt)
        config.max_delay * (1 / 2 + r) ∧
    (config.max_delay ≤ config.initial_delay * config.exponential_base ^ attempt →
      0 < config.max_delay → 1 / 2 < r → r < 1 →
      config.max_delay < config.calculate_delay attempt none r ∧
      config.calculate_delay attempt none r < 3 / 2 * config.max_delay) := by
  have heq : config.calculate_delay attempt none r =
      min (config.initial_delay * config.exponential_base ^ attempt)
        config.max_delay * (1 / 2 + r) := by
    rw [RetryConfig.calculate_delay, if_neg (by simp [retryAfterPos])]
    simp [hj]
  refine ⟨heq, ?_⟩
  intro hcap hpos hlo hhi
  rw [heq, min_eq_right hcap]
  constructor
  · nlinarith
  · nlinarith

/-- C9 witness: `initial_delay = 1`, base 2, `max_delay = 4`, attempt 2 (the
uncapped exponential is exactly the cap) and draw `r = 3/4`: the returned
delay is `4 * 1.25 = 5`, strictly above the cap 4 and below `1.5 * 4 = 6`. -/
theorem C9_witness :
    RetryConfig.calculate_delay ⟨3, 1, 4, 2, true, [], []⟩ 2 none (3 / 4) = 5 ∧
    (4 : ℚ) < RetryConfig.calculate_delay ⟨3, 1, 4, 2, true, [], []⟩ 2 none (3 / 4) ∧
    RetryConfig.calculate_delay ⟨3, 1, 4, 2, true, [], []⟩ 2 none (3 / 4) < 6 := by
  have h := C9_jitter_exceeds_cap ⟨3, 1, 4, 2, true, [], []⟩ 2 (3 / 4) rfl
  have hb := h.2 (by norm_num) (by norm_num) (by norm_num) (by norm_num)
  refine ⟨?_, hb.1, by linarith [hb.2]⟩
  rw [h.1]
  norm_num

lemma parse_event_state_message_id (st : StreamState) (p : Payload) :
    (parse_event st p).1.message_id =
      if truthyStr (pyOrStr p.message_id p.pid) then pyOrStr p.message_id p.pid
      else st.message_id := by
  simp only [parse_event]
  by_cases h1 : truthyStr (pyOrStr p.message_id p.pid) <;>
    by_cases h2 : parseEventType p = StreamEventType.content_delta <;>
      simp [h1, h2]

lemma parse_event_event_message_id (st : StreamState) (p : Payload) :
    (parse_event st p).2.message_id = (parse_event st p).1.message_id := rfl

lemma parse_event_event_type (st : StreamState) (p : Payload) :
    (parse_event st p).2.event_type = parseEventType p := rfl

lemma parse_event_event_data (st : StreamState) (p : Payload) :
    (parse_event st p).2.data = p := rfl

lemma parse_event_preserves_isSome (st : StreamState) (p : Payload)
    (h : st.message_id.isSome = true) :
    (parse_event st p).1.message_id.isSome = true := by
  rw [parse_event_state_message_id]
  split_ifs with ht
  · rcases hmid : pyOrStr p.message_id p.pid with _ | s
    · rw [hmid] at ht
      simp [truthyStr] at ht
    · simp [hmid]
  · exact h

lemma runStream_isSome (lines : List Line) : ∀ st : StreamState,
    st.message_id.isSome = true →
    (runStream st lines).1.message_id.isSome = true := by
  induction lines with
  | nil => intro st h; exact h
  | cons l rest ih =>
    intro st h
    cases l with
    | empty => exact ih st h
    | other s' => exact ih st h
    | dataLine d =>
      cases d with
      | done => exact h
      | malformed s' => exact ih st h
      | valid p =>
        simp only [runStream]
        exact ih (parse_event st p).1 (parse_event_preserves_isSome st p h)

lemma runStream_events_isSome (lines : List Line) : ∀ st : StreamState,
    st.message_id.isSome = true →
    ∀ ev ∈ (runStream st lines).2, ev.message_id.isSome = true := by
  induction lines with
  | nil => intro st _ ev hev; simp [runStream] at hev
  | cons l rest ih =>
    intro st h ev hev
    cases l with
    | empty => exact ih st h ev hev
    | other s' => exact ih st h ev hev
    | dataLine d =>
      cases d with
      | done => simp [runStream] at hev
      | malformed s' => exact ih st h ev hev
      | valid p =>
        simp only [runStream, List.mem_cons] at hev
        rcases hev with rfl | hev
        · rw [parse_event_event_message_id]
          exact parse_event_preserves_isSome st p h
        · exact ih (parse_event st p).1 (parse_event_preserves_isSome st p h) ev hev

lemma finalFold_error (evs : List StreamEvent) (acc : Payload)
    (h : ∃ ev ∈ evs, ev.event_type = StreamEventType.error) :
    ∃ ev ∈ evs, ev.event_type = StreamEventType.error ∧
      finalFold evs acc = .error (ev.data.perror.getD "Unknown error") := by
  induction evs generalizing acc with
  | nil => simp at h
  | cons ev rest ih =>
    by_cases he : ev.event_type = StreamEventType.error
    · exact ⟨ev, List.mem_cons_self ev rest, he, by simp [finalFold, he]⟩
    · have hex : ∃ e' ∈ rest, e'.event_type = StreamEventType.error := by
        rcases h with ⟨e', hm, he'⟩
        rcases List.mem_cons.mp hm with rfl | hm'
        · exact absurd he' he
        · exact ⟨e', hm', he'⟩
      by_cases hm : ev.event_type = StreamEventType.message_end
      · obtain ⟨e', hm', he', heq⟩ := ih ev.data hex
        exact ⟨e', List.mem_cons_of_mem ev hm', he', by simp [finalFold, hm, heq]⟩
      · obtain ⟨e', hm', he', heq⟩ := ih acc hex
        exact ⟨e', List.mem_cons_of_mem ev hm', he',
          by simp [finalFold, hm, he, heq]⟩

/-- C6: whenever the drained stream contains an event of kind `error`,
`get_final_message` raises rather than returning a partial structured
message, and the raised error carries that event's error payload text; in
particular a stream with one `error` event whose payload is
an error key mapped to the text `"boom"` raises with message text
`"boom"`. -/
theorem C6_final_message_error (lines : List Line)
    (h : ∃ ev ∈ (runStream StreamState.init lines).2,
      ev.event_type = StreamEventType.error) :
    (∃ ev ∈ (runStream StreamState.init lines).2,
      ev.event_type = StreamEventType.error ∧
      get_final_message lines = .error (ev.data.perror.getD "Unknown error")) ∧
    get_final_message [Line.dataLine (DataStr.valid
      ⟨some "error", none, none, none, some "boom"⟩)] = .error "boom" := by
  refine ⟨?_, rfl⟩
  obtain ⟨ev, hm, he, heq⟩ := finalFold_error _ Payload.empty h
  refine ⟨ev, hm, he, ?_⟩
  simp only [get_final_message, heq]

/-- C6 witness: the one-error-event stream satisfies the hypothesis and its
`get_final_message` raises with text `"boom"`. -/
theorem C6_witness :
    get_final_message [Line.dataLine (DataStr.valid
      ⟨some "error", none, none, none, some "boom"⟩)] = .error "boom" := by
  have h := C6_final_message_error [Line.dataLine (DataStr.valid
    ⟨some "error", none, none, none, some "boom"⟩)] (by decide)
  exact h.2

/-- C7: every emitted `StreamEvent` carries the parser's most recently seen
message identifier (the event's `message_id` equals the parser state's
remembered id after processing that payload); an id-less payload leaves the
remembered id unchanged, a payload carrying a truthy `message_id`/`id`
overwrites it; and the remembered id is monotonically latched: once set it
never reverts to unset on any continuation of the stream, and every event
emitted from a set state carries a set id. -/
theorem C7_message_id_latched (st : StreamState) (p : Payload) (lines : List Line) :
    ((parse_event st p).2.message_id = (parse_event st p).1.message_id) ∧
    (truthyStr (pyOrStr p.message_id p.pid) = false →
      (parse_event st p).1.message_id = st.message_id) ∧
    (∀ m, pyOrStr p.message_id p.pid = some m → m ≠ "" →
      (parse_event st p).1.message_id = some m) ∧
    (st.message_id.isSome = true →
      (runStream st lines).1.message_id.isSome = true) ∧
    (∀ ev ∈ (runStream st lines).2, st.message_id.isSome = true →
      ev.message_id.isSome = true) := by
  refine ⟨parse_event_event_message_id st p, ?_, ?_, runStream_isSome lines st,
    fun ev hev h => runStream_events_isSome lines st h ev hev⟩
  · intro ht
    rw [parse_event_state_message_id, if_neg (by simp [ht])]
  · intro m hm hne
    rw [parse_event_state_message_id, if_pos (by simp [hm, truthyStr, hne]), hm]

/-- C7 witness: a parser that has latched id `"m1"` keeps a set id across a
subsequent id-less `content_delta` line, and the event emitted for that line
carries a set id. -/
theorem C7_witness :
    (parse_event ⟨some "m1", ""⟩ ⟨none, none, none, some "hi", none⟩).1.message_id
        = some "m1" ∧
    (runStream ⟨some "m1", ""⟩
        [Line.dataLine (DataStr.valid ⟨none, none, none, some "hi", none⟩)]).1.message_id.isSome
        = true := by
  have h := C7_message_id_latched ⟨some "m1", ""⟩ ⟨none, none, none, some "hi", none⟩
    [Line.dataLine (DataStr.valid ⟨none, none, none, some "hi", none⟩)]
  exact ⟨h.2.1 rfl, h.2.2.2.1 rfl⟩

/-- C8: a data line whose payload fails to decode is swallowed silently: for
every parser state, the run over any line sequence containing the malformed
line is identical — same final state and same emitted events — to the run
over the same sequence with that line removed; in particular nothing is
raised for it, no event is emitted for it, and subsequent valid lines still
parse.  (The claim's concrete line — a data line whose remainder starts with
an opening brace and reads "not valid json" — is one instance of `s`.) -/
theorem C8_malformed_line_skipped (st : StreamState) (pre post : List Line)
    (s : String) :
    runStream st (pre ++ Line.dataLine (DataStr.malformed s) :: post) =
      runStream st (pre ++ post) := by
  induction pre generalizing st with
  | nil => rfl
  | cons l rest ih =>
    cases l with
    | empty => simpa only [List.cons_append, runStream] using ih st
    | other s' => simpa only [List.cons_append, runStream] using ih st
    | dataLine d =>
      cases d with
      | done => simp only [List.cons_append, runStream]
      | malformed s' => simpa only [List.cons_append, runStream] using ih st
      | valid p =>
        simp only [List.cons_append, runStream, List.append_eq]
        rw [ih (parse_event st p).1]

lemma string_join_cons (a : String) (l : List String) :
    String.join (a :: l) = a ++ String.join l := by
  simp [String.join_eq]
  rfl

lemma parse_event_content (st : StreamState) (p : Payload) :
    (parse_event st p).1.complete_content =
      st.complete_content ++
        (if parseEventType p = .content_delta then p.delta_text.getD "" else "") := by
  simp only [parse_event]
  by_cases h1 : truthyStr (pyOrStr p.message_id p.pid) <;>
    by_cases h2 : parseEventType p = StreamEventType.content_delta <;>
      simp [h1, h2]

lemma runStream_content (lines : List Line) : ∀ st : StreamState,
    (runStream st lines).1.complete_content =
      st.complete_content ++ deltaJoin lines := by
  induction lines with
  | nil => intro st; simp [runStream, deltaJoin]
  | cons l rest ih =>
    intro st
    cases l with
    | empty => simpa only [runStream, deltaJoin] using ih st
    | other s' => simpa only [runStream, deltaJoin] using ih st
    | dataLine d =>
      cases d with
      | done => simp [runStream, deltaJoin]
      | malformed s' => simpa only [runStream, deltaJoin] using ih st
      | valid p =>
        simp only [runStream, deltaJoin]
        rw [ih (parse_event st p).1, parse_event_content st p,
          String.append_assoc]

lemma runStream_content_events (lines : List Line) : ∀ st : StreamState,
    (runStream st lines).1.complete_content =
      st.complete_content ++
        String.join (((runStream st lines).2.filter
            (fun ev => ev.event_type == StreamEventType.content_delta)).map
          (fun ev => ev.data.delta_text.getD "")) := by
  induction lines with
  | nil => intro st; simp [runStream, String.join_eq]
  | cons l rest ih =>
    intro st
    cases l with
    | empty => simpa only [runStream] using ih st
    | other s' => simpa only [runStream] using ih st
    | dataLine d =>
      cases d with
      | done => simp [runStream, String.join_eq]
      | malformed s' => simpa only [runStream] using ih st
      | valid p =>
        simp only [runStream, List.filter_cons, parse_event_event_type,
          parse_event_event_data]
        rw [ih (parse_event st p).1, parse_event_content st p]
        by_cases h2 : parseEventType p = StreamEventType.content_delta
        · have hbeq : (parseEventType p == StreamEventType.content_delta) = true := by
            simp [h2]
          simp [h2, hbeq, string_join_cons, parse_event_event_data,
            String.append_assoc]
        · have hbeq : (parseEventType p == StreamEventType.content_delta) = false := by
            simp [h2]
          simp [h2, hbeq]

lemma deltaJoin_insert_error (p : Payload)
    (hp : parseEventType p = StreamEventType.error) : ∀ pre post : List Line,
    deltaJoin (pre ++ Line.dataLine (DataStr.valid p) :: post) =
      deltaJoin (pre ++ post) := by
  intro pre
  induction pre with
  | nil =>
    intro post
    simp [deltaJoin, hp]
  | cons l rest ih =>
    intro post
    cases l with
    | empty => simpa only [List.cons_append, deltaJoin] using ih post
    | other s' => simpa only [List.cons_append, deltaJoin] using ih post
    | dataLine d =>
      cases d with
      | done => simp only [List.cons_append, deltaJoin]
      | malformed s' => simpa only [List.cons_append, deltaJoin] using ih post
      | valid q =>
        simp only [List.cons_append, deltaJoin, List.append_eq]
        rw [ih post]

/-- C10 (implicit): `get_complete_content` drains the stream and returns the
concatenation of the `content_delta` texts of the events emitted, never
raising on `error`-kind events: inserting a payload classified as an `error`
event anywhere in the line sequence leaves the returned content unchanged, so
a server-reported stream error is silently invisible to a caller using
`get_complete_content`. -/
theorem C10_complete_content (lines : List Line) :
    (get_complete_content lines =
      String.join (((runStream StreamState.init lines).2.filter
          (fun ev => ev.event_type == StreamEventType.content_delta)).map
        (fun ev => ev.data.delta_text.getD ""))) ∧
    (∀ (pre post : List Line) (p : Payload),
      parseEventType p = StreamEventType.error →
      get_complete_content (pre ++ Line.dataLine (DataStr.valid p) :: post) =
        get_complete_content (pre ++ post)) := by
  constructor
  · have h := runStream_content_events lines StreamState.init
    simpa [get_complete_content, StreamState.init] using h
  · intro pre post p hp
    unfold get_complete_content
    rw [runStream_content _ StreamState.init, runStream_content _ StreamState.init,
      deltaJoin_insert_error p hp pre post]

/-- C10 witness: a stream `"a"`, error event, `"b"` yields content `"ab"`,
exactly the content of the same stream with the error line removed. -/
theorem C10_witness :
    get_complete_content
        [Line.dataLine (DataStr.valid ⟨some "content_delta", none, none, some "a", none⟩),
         Line.dataLine (DataStr.valid ⟨some "error", none, none, none, some "boom"⟩),
         Line.dataLine (DataStr.valid ⟨some "content_delta", none, none, some "b", none⟩)] =
      get_complete_content
        [Line.dataLine (DataStr.valid ⟨some "content_delta", none, none, some "a", none⟩),
         Line.dataLine (DataStr.valid ⟨some "content_delta", none, none, some "b", none⟩)] := by
  have h := (C10_complete_content
    [Line.dataLine (DataStr.valid ⟨some "content_delta", none, none, some "a", none⟩),
     Line.dataLine (DataStr.valid ⟨some "error", none, none, none, some "boom"⟩),
     Line.dataLine (DataStr.valid ⟨some "content_delta", none, none, some "b", none⟩)]).2
    [Line.dataLine (DataStr.valid ⟨some "content_delta", none, none, some "a", none⟩)]
    [Line.dataLine (DataStr.valid ⟨some "content_delta", none, none, some "b", none⟩)]
    ⟨some "error", none, none, none, some "boom"⟩ rfl
  exact h
